import Mathlib

set_option maxRecDepth 8192

/-! Verification of the pilot data-movement and job-lifecycle orchestrator
against its specification.  Every definition below is a shallow embedding of
the corresponding Python source: pure functions become Lean functions,
fallible code returns `Except`, machine integers become `Nat`/`Int`, and
external effects (file system, network, environment variables, the wall
clock) are passed in as explicit parameters. -/

namespace Pilot

/-- Modelled from the spec: the exception taxonomy of section 4.8.  The file
`pilot/common/errorcodes.py` is not among the provided sources; the spec says
the codes are opaque, pairwise-distinct integers, so the named kinds used in
this development are modelled as constructors of an inductive type. -/
inductive ErrorCode where
  | UNKNOWNEXCEPTION
  | STAGEINFAILED
  | STAGEOUTFAILED
  | REPLICANOTFOUND
  | NOSTORAGEPROTOCOL
  | MISSINGOUTPUTFILE
  deriving DecidableEq, Repr

/-- A `PilotException` as constructed in `pilot/common/exception.py:43-55`:
the taxonomy code (`UNKNOWNEXCEPTION` when no `code` keyword is passed, lines
48-52) together with the message text of the exception. -/
structure PilotError where
  code : ErrorCode
  msg : String
  deriving DecidableEq, Repr

/-! ## Schema preference (`StagingClient.get_preferred_replica`) -/

/-- Embedding of `str.startswith`: character-for-character prefix test.
(`String.startsWith` of the Lean core library is extensionally the same but
is defined through position loops that do not reduce inside the kernel, so
the character-list form is used throughout this development.) -/
def pyStartswith (s pre : String) : Bool :=
  List.isPrefixOf pre.data s.data

/-- One test of the inner loop of `StagingClient.get_preferred_replica`
(`pilot/api/data.py:92-95`): a replica is accepted when it is truthy
(non-empty) and the schema is falsy (`None` or the empty string) or the
replica starts with `schema ++ "://"`. -/
def schemaAccepts (replica : String) (schema : Option String) : Bool :=
  replica != "" &&
    (match schema with
     | none => true
     | some s => s == "" || pyStartswith replica (s ++ "://"))

/-- Embedding of `StagingClient.get_preferred_replica`
(`pilot/api/data.py:85-95`).  The Python source iterates the replicas in the
outer loop and the allowed schemas in the inner loop, returning at the first
accepted pair; falling off both loops returns `None`. -/
def get_preferred_replica (replicas : List String)
    (allowed_schemas : List (Option String)) : Option String :=
  match replicas with
  | [] => none
  | replica :: rest =>
    if allowed_schemas.any (fun schema => schemaAccepts replica schema) then some replica
    else get_preferred_replica rest allowed_schemas

/-- The behaviour claim C3 ascribes to `get_preferred_replica`: schema
priority decides, i.e. the earliest schema of `allowed_schemas` that any
replica matches selects the first such replica. -/
def get_preferred_replica_claimed (replicas : List String)
    (allowed_schemas : List (Option String)) : Option String :=
  match allowed_schemas with
  | [] => none
  | schema :: rest =>
    match replicas.find? (fun replica => schemaAccepts replica schema) with
    | some replica => some replica
    | none => get_preferred_replica_claimed replicas rest

/-! ## Heartbeat suspension (`pilot/util/heartbeat.py`) -/

/-- Embedding of `is_suspended` from `pilot/util/heartbeat.py:105-120`.  The
argument `dict` is the JSON object returned by `read_pilot_heartbeat`; a
missing or unreadable heartbeat file yields the empty dictionary, which is
falsy, as is a `last_pilot_update` value of `0` (also the `.get` default for
a missing key).  The wall clock `now` stands for `time.time()`. -/
def is_suspended (dict : List (String × Int)) (now : Int) (limit : Int) : Bool :=
  if dict.isEmpty then false
  else
    let last_pilot_update := (dict.lookup "last_pilot_update").getD 0
    if last_pilot_update = 0 then false
    else decide (now - last_pilot_update > limit)

/-! ## Communicator (`PandaCommunicator.update_job` / `update_jobs`) -/

/-- Embedding of `PandaCommunicator.update_job` (`pandacommunicator.py:232-246`):
the `https.request` round-trip is the oracle `server`; its response is
returned as is, and any raised exception is caught and turned into `-1`. -/
def update_job {α : Type} (server : α → Except String Int) (job : α) : Int :=
  match server job with
  | .ok res => res
  | .error _ => -1

/-- The collection loop of `PandaCommunicator.update_jobs`
(`pandacommunicator.py:257-260`): `res_list` starts empty and the response of
each `update_job` call is appended in iteration order. -/
def update_jobs_loop {α : Type} (server : α → Except String Int) :
    List α → List Int → List Int
  | [], res_list => res_list
  | job :: rest, res_list =>
    update_jobs_loop server rest (res_list ++ [update_job server job])

/-- The normalised response envelope of the communicator (spec section 4.5);
the `exception` slot is `none` on the success path taken here. -/
structure CommunicationResponse where
  status : Int
  content : Option (List Int)
  deriving DecidableEq, Repr

/-- Embedding of `PandaCommunicator.update_jobs` (`pandacommunicator.py:248-269`).
The lock acquire/release is concurrency scaffolding; no statement of the
`try` body can raise (`update_job` catches every exception itself), so the
success branch with `status = 0` is always taken. -/
def update_jobs {α : Type} (server : α → Except String Int) (jobs : List α) :
    CommunicationResponse :=
  ⟨0, some (update_jobs_loop server jobs [])⟩

/-! ## Theorems for C3, C6, C9 -/

theorem update_jobs_loop_eq_map {α : Type} (server : α → Except String Int)
    (jobs : List α) (acc : List Int) :
    update_jobs_loop server jobs acc = acc ++ jobs.map (update_job server) := by
  induction jobs generalizing acc with
  | nil => simp [update_jobs_loop]
  | cons job rest ih => simp [update_jobs_loop, ih]

/-- C3 counterexample: on `pfns = [gsiftp://a, root://b]` with allowed
schemas `[root, gsiftp]`, the code returns `gsiftp://a` (the first pfn
matching any schema) while the claimed schema-priority rule would return
`root://b`, the first pfn of the earliest schema. -/
theorem get_preferred_replica_counterexample :
    get_preferred_replica ["gsiftp://a", "root://b"] [some "root", some "gsiftp"]
        = some "gsiftp://a" ∧
    get_preferred_replica_claimed ["gsiftp://a", "root://b"] [some "root", some "gsiftp"]
        = some "root://b" ∧
    some "gsiftp://a" ≠ (some "root://b" : Option String) := by
  refine ⟨by decide, by decide, by decide⟩

/-- C3 (amended): `get_preferred_replica` returns the first pfn, in pfn
order, that matches any allowed schema (pfn order decides, not schema
priority); a `None` or empty schema accepts any non-empty pfn; and the
result is always an element of the pfn list or `None`. -/
theorem get_preferred_replica_spec :
    (∀ (replicas : List String) (allowed : List (Option String)),
      get_preferred_replica replicas allowed
        = replicas.find? (fun replica => allowed.any (fun s => schemaAccepts replica s))) ∧
    (∀ (replicas : List String) (allowed : List (Option String)) (r : String),
      get_preferred_replica replicas allowed = some r → r ∈ replicas) ∧
    (∀ r : String, r ≠ "" → schemaAccepts r none = true ∧ schemaAccepts r (some "") = true) := by
  refine ⟨?_, ?_, ?_⟩
  · intro replicas allowed
    induction replicas with
    | nil => rfl
    | cons replica rest ih =>
      by_cases h : allowed.any (fun s => schemaAccepts replica s) = true
      · simp [get_preferred_replica, List.find?, h]
      · simp only [Bool.not_eq_true] at h
        simp [get_preferred_replica, List.find?, h, ih]
  · intro replicas allowed r h
    induction replicas with
    | nil => simp [get_preferred_replica] at h
    | cons replica rest ih =>
      by_cases hm : allowed.any (fun s => schemaAccepts replica s) = true
      · simp [get_preferred_replica, hm] at h
        simp [h]
      · simp only [Bool.not_eq_true] at hm
        simp [get_preferred_replica, hm] at h
        exact List.mem_cons_of_mem _ (ih h)
  · intro r hr
    constructor
    · simp [schemaAccepts, hr]
    · simp [schemaAccepts, hr]

/-- C3 witness: the amended characterisation evaluated at a concrete input. -/
theorem get_preferred_replica_spec_witness :
    get_preferred_replica ["", "srm://c", "root://b"] [some "root", none]
      = ["", "srm://c", "root://b"].find?
          (fun replica => [some "root", none].any (fun s => schemaAccepts replica s)) ∧
    ("srm://c" : String) ≠ "" ∧ schemaAccepts "srm://c" none = true :=
  ⟨get_preferred_replica_spec.1 ["", "srm://c", "root://b"] [some "root", none],
   by decide, (get_preferred_replica_spec.2.2 "srm://c" (by decide)).1⟩

/-- C6 counterexample: a heartbeat dictionary whose `last_pilot_update` is
`0` makes `is_suspended` return `false` even though `now - 0 > limit`, so
the claimed equivalence fails for a zero entry. -/
theorem is_suspended_counterexample :
    is_suspended [("last_pilot_update", 0)] 1000 600 = false ∧
    (1000 : Int) - 0 > 600 := by
  refine ⟨by decide, by decide⟩

/-- C6 (amended): `is_suspended(limit)` is true iff the heartbeat dictionary
is non-empty, holds a non-zero `last_pilot_update` entry, and
`now - last_pilot_update > limit`; a missing file (empty dictionary), a
missing entry, or a zero entry all yield `false`. -/
theorem is_suspended_iff (dict : List (String × Int)) (now limit : Int) :
    is_suspended dict now limit = true ↔
      dict ≠ [] ∧ (dict.lookup "last_pilot_update").getD 0 ≠ 0 ∧
        now - (dict.lookup "last_pilot_update").getD 0 > limit := by
  unfold is_suspended
  by_cases hd : dict.isEmpty
  · simp [hd, List.isEmpty_iff.mp hd]
  · have hne : dict ≠ [] := by
      intro h
      rw [h] at hd
      exact hd rfl
    by_cases hz : (dict.lookup "last_pilot_update").getD 0 = 0
    · simp [hd, hz]
    · simp [hd, hz, hne]

/-- C9: `update_jobs` answers with `status = 0` and a content list holding
one `update_job` response per job of the request, in request order; a server
failure on one entry becomes `-1` for that entry and does not abort the
iteration over the remaining jobs. -/
theorem update_jobs_sequential {α : Type} (server : α → Except String Int)
    (jobs : List α) :
    (update_jobs server jobs).status = 0 ∧
    (update_jobs server jobs).content = some (jobs.map (update_job server)) ∧
    (∀ (job : α) (e : String), server job = .error e → update_job server job = -1) := by
  refine ⟨rfl, ?_, ?_⟩
  · simp [update_jobs, update_jobs_loop_eq_map]
  · intro job e he
    simp [update_job, he]

/-- C9 witness: a two-job request where the first item fails and the second
succeeds still yields `status = 0` and both per-item responses in order. -/
theorem update_jobs_sequential_witness :
    (update_jobs (fun j : Nat => if j = 1 then .error "down" else .ok 7) [1, 2]).status = 0 ∧
    (update_jobs (fun j : Nat => if j = 1 then .error "down" else .ok 7) [1, 2]).content
      = some [-1, 7] ∧
    update_job (fun j : Nat => if j = 1 then .error "down" else .ok 7) 1 = -1 := by
  have h := update_jobs_sequential (fun j : Nat => if j = 1 then .error "down" else .ok 7) [1, 2]
  exact ⟨h.1, by rw [h.2.1]; rfl, h.2.2 1 "down" rfl⟩

/-! ## The staging dispatch loop (`StagingClient.transfer`) -/

/-- The registered copytool names: the keys of `StagingClient.copytool_modules`
(`pilot/api/data.py:30-38`). -/
def copytool_modules : List String :=
  ["rucio", "gfal", "gfalcopy", "lcgcp", "dccp", "xrdcp", "mv", "lsm"]

/-- An error caught and recorded in the `errors` list of the dispatch loop of
`StagingClient.transfer`: either a `PilotException` or any other exception
(of which only the text matters to the loop). -/
inductive CaughtError where
  | pilot (err : PilotError)
  | plain (msg : String)
  deriving DecidableEq, Repr

/-- Behaviour of one backend attempt as observed by `StagingClient.transfer`:
importing the copytool module may fail (line 300, logged and skipped without
being recorded), and `transfer_files` (line 310) may return a truthy result,
raise a `PilotException`, or raise any other exception. -/
inductive BackendOutcome (α : Type) where
  | importFail
  | ok (result : α)
  | pilotErr (err : PilotError)
  | otherErr (msg : String)

/-- The abort test at `pilot/api/data.py:320`: the last recorded error is a
`PilotException` whose code is `MISSINGOUTPUTFILE`. -/
def lastIsMissingOutput (errors : List CaughtError) : Bool :=
  match errors.getLast? with
  | some (.pilot err) => decide (err.code = ErrorCode.MISSINGOUTPUTFILE)
  | _ => false

/-- Rendering of one caught error, after `PilotException.__str__`
(`pilot/common/exception.py:57-79`). -/
def describeCaught : CaughtError → String
  | .pilot err =>
    let codeName :=
      match err.code with
      | .UNKNOWNEXCEPTION => "UNKNOWNEXCEPTION"
      | .STAGEINFAILED => "STAGEINFAILED"
      | .STAGEOUTFAILED => "STAGEOUTFAILED"
      | .REPLICANOTFOUND => "REPLICANOTFOUND"
      | .NOSTORAGEPROTOCOL => "NOSTORAGEPROTOCOL"
      | .MISSINGOUTPUTFILE => "MISSINGOUTPUTFILE"
    "error code: " ++ codeName ++ ", message: " ++ err.msg
  | .plain msg => msg

/-- The message of the exception raised at `pilot/api/data.py:327` when the
loop exhausted every backend without a truthy result. -/
def failedTransferMessage (errors : List CaughtError) : String :=
  "Failed to transfer files using copytools, error="
    ++ String.intercalate "; " (errors.map describeCaught)

/-- The dispatch loop of `StagingClient.transfer` (`pilot/api/data.py:291-329`)
over the resolved copytool list, with the behaviour of each backend given by
the oracle `env`.  An unknown copytool name records a recoverable
`PilotException` (raised without a code, hence `UNKNOWNEXCEPTION`, line 297)
and moves on; an import failure is logged and skipped without being recorded
(lines 305-308); a raised exception from the attempt is recorded (lines
311-318).  After each attempt the loop re-raises `errors[-1]` immediately
when it is a `MISSINGOUTPUTFILE` `PilotException` (lines 320-321); a truthy
result breaks the loop (lines 323-324); an exhausted list raises a fresh
`PilotException` reporting the collected errors (lines 326-327). -/
def transferLoop {α : Type} (env : String → BackendOutcome α) :
    List String → List CaughtError → Except CaughtError α
  | [], errors =>
    .error (.pilot ⟨.UNKNOWNEXCEPTION, failedTransferMessage errors⟩)
  | name :: rest, errors =>
    if name ∈ copytool_modules then
      match env name with
      | .importFail => transferLoop env rest errors
      | .ok result =>
        -- the abort test inspects the errors recorded by EARLIER attempts
        if lastIsMissingOutput errors then
          .error ((errors.getLast?).getD (.plain ""))
        else .ok result
      | .pilotErr err =>
        let errors := errors ++ [.pilot err]
        if lastIsMissingOutput errors then .error (.pilot err)
        else transferLoop env rest errors
      | .otherErr msg =>
        -- a plain exception has no pilot error code, so the abort test is
        -- vacuous for it and the loop continues
        transferLoop env rest (errors ++ [.plain msg])
    else
      transferLoop env rest
        (errors ++ [.pilot ⟨.UNKNOWNEXCEPTION, "passed unknown copytool with name=" ++ name⟩])

/-- Activity resolution of `StagingClient.transfer` (`pilot/api/data.py:277-289`):
`default` is appended to the activity list when absent, and the first
activity with a non-empty backend list in `acopytools` wins (an activity
missing from `acopytools` or mapped to an empty list is skipped). -/
def resolveCopytools (acopytools : List (String × List String))
    (activity : List String) : List String :=
  let acts := if activity.contains "default" then activity else activity ++ ["default"]
  match acts.findSome? (fun aname =>
    match acopytools.lookup aname with
    | some (c :: cs) => some (c :: cs)
    | _ => none) with
  | some copytools => copytools
  | none => []

/-- Embedding of `StagingClient.transfer` (`pilot/api/data.py:267-329`), the
engine behind `stage_in` and `stage_out`: activity resolution followed by the
dispatch loop with an initially empty error list. -/
def transfer {α : Type} (env : String → BackendOutcome α)
    (acopytools : List (String × List String)) (activity : List String) :
    Except CaughtError α :=
  let copytools := resolveCopytools acopytools activity
  if copytools.isEmpty then
    .error (.pilot ⟨.UNKNOWNEXCEPTION, "Failed to resolve copytool by preferred activities"⟩)
  else transferLoop env copytools []

/-- A backend outcome the dispatch loop treats as recoverable: an import
failure, a plain exception, or a `PilotException` whose code is not
`MISSINGOUTPUTFILE` (anything except a truthy result and except the fatal
code). -/
def recoverableOutcome {α : Type} : BackendOutcome α → Bool
  | .importFail => true
  | .ok _ => false
  | .pilotErr err => decide (err.code ≠ ErrorCode.MISSINGOUTPUTFILE)
  | .otherErr _ => true

/-- The errors the loop records while walking a list of backends that all
fail recoverably: one `UNKNOWNEXCEPTION` entry per unregistered name, one
recorded exception per failed registered attempt, nothing for an import
failure. -/
def recordedErrors {α : Type} (env : String → BackendOutcome α) :
    List String → List CaughtError
  | [] => []
  | name :: rest =>
    (if name ∈ copytool_modules then
      match env name with
      | .importFail => []
      | .ok _ => []
      | .pilotErr err => [CaughtError.pilot err]
      | .otherErr msg => [CaughtError.plain msg]
    else
      [CaughtError.pilot ⟨.UNKNOWNEXCEPTION, "passed unknown copytool with name=" ++ name⟩])
      ++ recordedErrors env rest

theorem lastIsMissingOutput_append_pilot (errors : List CaughtError) (err : PilotError) :
    lastIsMissingOutput (errors ++ [.pilot err])
      = decide (err.code = ErrorCode.MISSINGOUTPUTFILE) := by
  simp [lastIsMissingOutput]

theorem transferLoop_recoverable_prefix {α : Type} (env : String → BackendOutcome α)
    (pre : List String) (l : List String) (errors : List CaughtError)
    (h : ∀ n ∈ pre, n ∈ copytool_modules → recoverableOutcome (env n) = true) :
    transferLoop env (pre ++ l) errors
      = transferLoop env l (errors ++ recordedErrors env pre) := by
  induction pre generalizing errors with
  | nil => simp [recordedErrors]
  | cons name rest ih =>
    have hname := h name (List.mem_cons_self name rest)
    have hrest : ∀ n ∈ rest, n ∈ copytool_modules → recoverableOutcome (env n) = true :=
      fun n hn => h n (List.mem_cons_of_mem _ hn)
    by_cases hmem : name ∈ copytool_modules
    · have hrec := hname hmem
      cases henv : env name with
      | importFail =>
        simp [transferLoop, hmem, henv, recordedErrors, ih _ hrest]
      | ok result =>
        rw [henv] at hrec
        simp [recoverableOutcome] at hrec
      | pilotErr err =>
        rw [henv] at hrec
        simp only [recoverableOutcome, decide_eq_true_eq] at hrec
        simp [transferLoop, hmem, henv, recordedErrors,
          lastIsMissingOutput_append_pilot, hrec, ih _ hrest]
      | otherErr msg =>
        simp [transferLoop, hmem, henv, recordedErrors, ih _ hrest]
    · simp [transferLoop, hmem, recordedErrors, ih _ hrest]

theorem transferLoop_all_recoverable {α : Type} (env : String → BackendOutcome α)
    (names : List String) (errors : List CaughtError)
    (h : ∀ n ∈ names, n ∈ copytool_modules → recoverableOutcome (env n) = true) :
    transferLoop env names errors
      = .error (.pilot ⟨.UNKNOWNEXCEPTION,
          failedTransferMessage (errors ++ recordedErrors env names)⟩) := by
  have := transferLoop_recoverable_prefix env names [] errors h
  simp only [List.append_nil] at this
  rw [this]
  rfl

/-- C1 counterexample: with backends `[rucio, gfal]` both raising a
recoverable `STAGEINFAILED` `PilotException`, `transfer` exhausts the list
and raises a fresh generic `PilotException` (code `UNKNOWNEXCEPTION`) that
reports the collected errors — not the `STAGEINFAILED` error object of the
final backend, as the claim states. -/
theorem transfer_exhaustion_counterexample :
    transfer (fun name =>
        if name = "rucio" then BackendOutcome.pilotErr (α := Unit) ⟨.STAGEINFAILED, "rucio failed"⟩
        else BackendOutcome.pilotErr ⟨.STAGEINFAILED, "gfal failed"⟩)
      [("default", ["rucio", "gfal"])] ["default"]
      = .error (.pilot ⟨.UNKNOWNEXCEPTION,
          failedTransferMessage
            [.pilot ⟨.STAGEINFAILED, "rucio failed"⟩, .pilot ⟨.STAGEINFAILED, "gfal failed"⟩]⟩) ∧
    (PilotError.mk .UNKNOWNEXCEPTION
        (failedTransferMessage
          [.pilot ⟨.STAGEINFAILED, "rucio failed"⟩, .pilot ⟨.STAGEINFAILED, "gfal failed"⟩]))
      ≠ ⟨.STAGEINFAILED, "gfal failed"⟩ := by
  constructor
  · rfl
  · intro hcontra
    exact ErrorCode.noConfusion (congrArg PilotError.code hcontra)

/-- C1 (amended): if an attempted backend raises a `PilotException` whose
code is `MISSINGOUTPUTFILE`, `transfer` raises that very error immediately
and attempts no further backend (the conclusion holds for every behaviour of
the backends after it); and if every backend fails recoverably, `transfer`
exhausts the whole list and then raises a new generic `PilotException`
(code `UNKNOWNEXCEPTION`) whose message reports all collected errors — not
the final backend's own error object. -/
theorem transfer_dispatch_spec :
    (∀ (α : Type) (env : String → BackendOutcome α)
        (acopytools : List (String × List String)) (activity : List String)
        (pre post : List String) (b : String) (err : PilotError),
      resolveCopytools acopytools activity = pre ++ b :: post →
      (∀ n ∈ pre, n ∈ copytool_modules → recoverableOutcome (env n) = true) →
      b ∈ copytool_modules →
      env b = .pilotErr err →
      err.code = ErrorCode.MISSINGOUTPUTFILE →
      transfer env acopytools activity = .error (.pilot err)) ∧
    (∀ (α : Type) (env : String → BackendOutcome α)
        (acopytools : List (String × List String)) (activity : List String)
        (names : List String),
      resolveCopytools acopytools activity = names →
      names ≠ [] →
      (∀ n ∈ names, n ∈ copytool_modules → recoverableOutcome (env n) = true) →
      transfer env acopytools activity
        = .error (.pilot ⟨.UNKNOWNEXCEPTION,
            failedTransferMessage (recordedErrors env names)⟩)) := by
  constructor
  · intro α env acopytools activity pre post b err hres hpre hb henv hcode
    have hstep : transfer env acopytools activity = transferLoop env (pre ++ b :: post) [] := by
      unfold transfer
      rw [hres]
      have hne : (pre ++ b :: post).isEmpty = false := by cases pre <;> rfl
      simp [hne]
    rw [hstep, transferLoop_recoverable_prefix env pre (b :: post) [] hpre]
    simp [transferLoop, hb, henv, lastIsMissingOutput_append_pilot, hcode]
  · intro α env acopytools activity names hres hne h
    have hisempty : names.isEmpty = false := by
      cases names with
      | nil => exact absurd rfl hne
      | cons a l => rfl
    have hstep : transfer env acopytools activity = transferLoop env names [] := by
      unfold transfer
      rw [hres]
      simp [hisempty]
    rw [hstep, transferLoop_all_recoverable env names [] h]
    rw [List.nil_append]

/-- C1 witness: both parts of the amended dispatch behaviour at concrete
inputs — a `MISSINGOUTPUTFILE` raised by `rucio` is re-raised as is with the
`gfal` backend never consulted, and two recoverable failures end in the
generic exhaustion error. -/
theorem transfer_dispatch_spec_witness :
    transfer (fun name =>
        if name = "rucio" then BackendOutcome.pilotErr (α := Unit) ⟨.MISSINGOUTPUTFILE, "lost"⟩
        else BackendOutcome.ok ())
      [("default", ["rucio", "gfal"])] ["default"]
      = .error (.pilot ⟨.MISSINGOUTPUTFILE, "lost"⟩) ∧
    transfer (fun _ => BackendOutcome.otherErr (α := Unit) "boom")
      [("default", ["xrdcp", "lsm"])] ["default"]
      = .error (.pilot ⟨.UNKNOWNEXCEPTION,
          failedTransferMessage [.plain "boom", .plain "boom"]⟩) := by
  constructor
  · exact transfer_dispatch_spec.1 Unit _ _ _ [] ["gfal"] "rucio" ⟨.MISSINGOUTPUTFILE, "lost"⟩
      rfl (by intro n hn; simp at hn) (by decide) rfl rfl
  · exact transfer_dispatch_spec.2 Unit _ _ _ ["xrdcp", "lsm"] rfl (by decide)
      (by intro n hn hmem; rfl)

/-! ## The replica resolver (`StagingClient.resolve_replicas`) -/

/-- The schema allow-lists, class attributes of `StagingClient`
(`pilot/api/data.py:40-43`).  They are plain string lists in the source;
they are embedded pre-wrapped in `Option` because `get_preferred_replica`
mixes `None` into the same position. -/
def direct_remoteinput_allowed_schemas : List (Option String) := [some "root"]

def direct_localinput_allowed_schemas : List (Option String) :=
  [some "root", some "dcache", some "dcap", some "file", some "https"]

def remoteinput_allowed_schemas : List (Option String) :=
  [some "root", some "gsiftp", some "dcap", some "davs", some "srm"]

/-- Dynamic attribute lookup for the schema lists on a `StagingClient` (or a
subclass) instance: these three class attributes (`pilot/api/data.py:40-43`)
are the only schema-list attributes defined anywhere on the class hierarchy
or its instances, so `self.allowed_schemas` resolves to nothing and Python
raises `AttributeError`. -/
def stagingClientSchemaAttr : String → Option (List (Option String))
  | "direct_remoteinput_allowed_schemas" => some direct_remoteinput_allowed_schemas
  | "direct_localinput_allowed_schemas" => some direct_localinput_allowed_schemas
  | "remoteinput_allowed_schemas" => some remoteinput_allowed_schemas
  | _ => none

/-- The fields of one input `FileSpec` that `resolve_replicas` and the
stage-in direct-access policy read or write. -/
structure FileSpec where
  scope : String
  lfn : String
  ddmendpoint : String
  inputddms : List String
  replicas : List (String × List String)
  accessmode : String
  allowremoteinputs : Bool
  deriving DecidableEq, Repr

/-- The local-replica walk of `StagingClient.resolve_replicas`
(`pilot/api/data.py:176-184`): the local ddms are visited in `inputddms`
order, each endpoint with a non-empty pfn list is appended, and
`has_direct_localinput_replicas` becomes true as soon as some appended pfn
list holds a replica accepted by `direct_localinput_allowed_schemas`. -/
def localReplicaWalk (inputddms : List String) (rses : List (String × List String)) :
    List (String × List String) × Bool :=
  inputddms.foldl
    (fun acc ddm =>
      match rses.lookup ddm with
      | none => acc
      | some [] => acc
      | some pfns =>
        (acc.1 ++ [(ddm, pfns)],
         acc.2 || (get_preferred_replica pfns direct_localinput_allowed_schemas).isSome))
    ([], false)

/-- Per-record replica population of `StagingClient.resolve_replicas`
(`pilot/api/data.py:172-205`): the file's replica list is reset, the local
ddms are walked, and when the list is still empty — or the file asks for
direct access with no suitable local pfn — while `allowremoteinputs` is set,
every endpoint of the record is scanned for a pfn matching the remote
allow-list.  The scan at line 199 reads `self.allowed_schemas`, an attribute
that does not exist (the intended local variable computed at lines 187-190 is
named `allowed_schemas`), so the first loop iteration over a non-empty `rses`
raises `AttributeError`. -/
def populate_replicas (fdat : FileSpec) (rses : List (String × List String)) :
    Except String FileSpec :=
  let walk := localReplicaWalk fdat.inputddms rses
  let replicas := walk.1
  let has_direct_localinput_replicas := walk.2
  if (replicas.isEmpty || (fdat.accessmode == "direct" && !has_direct_localinput_replicas))
      && fdat.allowremoteinputs then
    -- lines 187-190 bind the intended allow-list to a LOCAL variable:
    let _allowed_schemas :=
      if fdat.accessmode == "direct" then direct_remoteinput_allowed_schemas
      else remoteinput_allowed_schemas
    match rses with
    | [] => .ok { fdat with replicas := replicas }
    | _ :: _ =>
      -- line 199 evaluates `self.allowed_schemas` in the first loop body:
      match stagingClientSchemaAttr "allowed_schemas" with
      | none => .error "AttributeError: instance has no attribute allowed_schemas"
      | some schemas =>
        let remote := rses.filter (fun p => (get_preferred_replica p.2 schemas).isSome)
        .ok { fdat with replicas := replicas ++ remote }
  else .ok { fdat with replicas := replicas }

/-- C2: a file with no local replicas and `allowremoteinputs = true` makes
the remote-endpoint scan of `resolve_replicas` raise `AttributeError` on its
first iteration, because line 199 reads the non-existent attribute
`self.allowed_schemas` instead of the local `allowed_schemas` just computed
at lines 187-190.  The claimed error-free scan never happens. -/
theorem populate_replicas_attribute_error :
    populate_replicas
        ⟨"mc16", "a.root", "SITE_DATADISK", [], [], "", true⟩
        [("REMOTE_DISK", ["root://far/a.root"])]
      = .error "AttributeError: instance has no attribute allowed_schemas" ∧
    stagingClientSchemaAttr "allowed_schemas" = none := by
  exact ⟨rfl, rfl⟩

/-! ## Stage-in direct-access policy (`StageInClient.transfer_files`) -/

/-- Modelled from the spec: a job as far as the direct-access policy needs it
(section 3 — a Job carries `transfertype` and `is_analysis`; the job class
itself is not among the provided sources). -/
structure JobInfo where
  is_analysis : Bool
  transfertype : String
  deriving DecidableEq, Repr

/-- Embedding of `StageInClient.get_direct_access_variables`
(`pilot/api/data.py:368-390`): the queue flags come from
`queuedata.direct_access_lan` / `direct_access_wan` (`queuedata_present`
models an uninitialized infosys, which disables direct access); a production
job (`not is_analysis`) whose `transfertype` differs from `direct` forces
direct access off. -/
def get_direct_access_variables (queuedata_present direct_access_lan direct_access_wan : Bool)
    (job : Option JobInfo) : Bool × String :=
  let allow_direct_access :=
    if queuedata_present then direct_access_lan || direct_access_wan else false
  let direct_access_type :=
    if queuedata_present then
      if direct_access_wan then "WAN" else if direct_access_lan then "LAN" else ""
    else ""
  let allow_direct_access :=
    match job with
    | some j =>
      if !j.is_analysis && j.transfertype != "direct" then false else allow_direct_access
    | none => allow_direct_access
  (allow_direct_access, direct_access_type)

/-- One round of the per-file loop at `pilot/api/data.py:417-431`, run only
when direct access is allowed.  `is_directaccess` stands for the method
`fdata.is_directaccess(ensure_replica=False)` (modelled from the spec:
whether the file itself is direct-access capable; the `FileSpec` class is
not among the provided sources), evaluated on the incoming file before any
mutation, exactly as the source computes it once at line 418. -/
def adjustAccess (allow_direct_access : Bool) (direct_access_type : String)
    (is_directaccess : FileSpec → Bool) (fdata : FileSpec) : FileSpec :=
  let is_da := allow_direct_access && is_directaccess fdata
  let fdata :=
    if is_da && direct_access_type == "WAN" then { fdata with allowremoteinputs := true }
    else fdata
  let fdata :=
    if fdata.accessmode != "direct" && is_da then { fdata with accessmode := "direct" }
    else fdata
  if fdata.accessmode == "direct" && !is_da then { fdata with accessmode := "" }
  else fdata

/-- The direct-access phase of `StageInClient.transfer_files`
(`pilot/api/data.py:404-431`): when direct access is allowed the files are
reordered so that direct-access candidates come first (a stable sort on a
boolean key, line 414) and each file is adjusted; otherwise the files pass
through untouched. -/
def stage_in_direct_access_phase (queuedata_present direct_access_lan direct_access_wan : Bool)
    (job : Option JobInfo) (is_directaccess : FileSpec → Bool)
    (files : List FileSpec) : List FileSpec :=
  let vars := get_direct_access_variables queuedata_present direct_access_lan
    direct_access_wan job
  if vars.1 then
    let sorted := files.filter (fun f => is_directaccess f)
      ++ files.filter (fun f => !is_directaccess f)
    sorted.map (adjustAccess vars.1 vars.2 is_directaccess)
  else files

/-- C5 counterexample: with `direct_access_lan = false` and
`direct_access_wan = false` the whole adjustment loop is skipped (the guard
at line 412), so a file that arrives with `accessmode = "direct"` keeps it —
contradicting the claim that no file ends with `accessmode = "direct"`. -/
theorem stage_in_direct_access_counterexample :
    stage_in_direct_access_phase true false false none (fun _ => false)
        [⟨"mc16", "a.root", "SITE_DATADISK", [], [], "direct", false⟩]
      = [⟨"mc16", "a.root", "SITE_DATADISK", [], [], "direct", false⟩] ∧
    (FileSpec.accessmode ⟨"mc16", "a.root", "SITE_DATADISK", [], [], "direct", false⟩)
      = "direct" := by
  exact ⟨rfl, rfl⟩

/-- C5 (amended): when `direct_access_lan` and `direct_access_wan` are both
false the direct-access phase returns the files unchanged — so no file
acquires `accessmode = "direct"`, but a file already carrying it keeps it;
when direct access is allowed, an ineligible file (one the per-file test
rejects) that arrives with `accessmode = "direct"` is reset to `""`, and
after adjustment a file carries `accessmode = "direct"` exactly when the
per-file test accepts it. -/
theorem stage_in_direct_access_spec :
    (∀ (queuedata_present : Bool) (job : Option JobInfo)
        (is_directaccess : FileSpec → Bool) (files : List FileSpec),
      stage_in_direct_access_phase queuedata_present false false job is_directaccess files
        = files) ∧
    (∀ (direct_access_type : String) (is_directaccess : FileSpec → Bool) (f : FileSpec),
      is_directaccess f = false → f.accessmode = "direct" →
      (adjustAccess true direct_access_type is_directaccess f).accessmode = "") ∧
    (∀ (direct_access_type : String) (is_directaccess : FileSpec → Bool) (f : FileSpec),
      ((adjustAccess true direct_access_type is_directaccess f).accessmode = "direct")
        ↔ is_directaccess f = true) := by
  refine ⟨?_, ?_, ?_⟩
  · intro queuedata_present job is_directaccess files
    have hallow : (get_direct_access_variables queuedata_present false false job).1 = false := by
      cases job with
      | none => cases queuedata_present <;> rfl
      | some j =>
        cases queuedata_present <;> simp [get_direct_access_variables]
    unfold stage_in_direct_access_phase
    simp only [hallow]
    simp
  · intro direct_access_type is_directaccess f hda hmode
    simp [adjustAccess, hda, hmode]
  · intro direct_access_type is_directaccess f
    cases hda : is_directaccess f with
    | false =>
      by_cases hmode : f.accessmode = "direct"
      · simp [adjustAccess, hda, hmode]
      · simp [adjustAccess, hda, hmode]
    | true =>
      by_cases hmode : f.accessmode = "direct"
      · by_cases hwan : direct_access_type = "WAN" <;>
          simp [adjustAccess, hda, hmode, hwan]
      · by_cases hwan : direct_access_type = "WAN" <;>
          simp [adjustAccess, hda, hmode, hwan]

/-- C5 witness: the amended behaviour at concrete inputs — the phase with
both flags off passes a direct-access file through, and an ineligible
direct-access file is reset to the empty access mode when the phase runs. -/
theorem stage_in_direct_access_spec_witness :
    stage_in_direct_access_phase true false false none (fun _ => false)
        [⟨"mc16", "b.root", "SITE", [], [], "", true⟩]
      = [⟨"mc16", "b.root", "SITE", [], [], "", true⟩] ∧
    (adjustAccess true "LAN" (fun _ => false)
        ⟨"mc16", "b.root", "SITE", [], [], "direct", true⟩).accessmode = "" :=
  ⟨stage_in_direct_access_spec.1 true none (fun _ => false) _,
   stage_in_direct_access_spec.2.1 "LAN" (fun _ => false)
     ⟨"mc16", "b.root", "SITE", [], [], "direct", true⟩ rfl rfl⟩

/-! ## Client-location probe (`StagingClient.detect_client_location`) -/

/-- Embedding of `StagingClient.detect_client_location`
(`pilot/api/data.py:228-253`): `pilot_sitename` is the environment variable
`PILOT_SITENAME` (read before the guarded block, default `unknown`), and
`probe` is the outcome of the UDP-socket block — `none` when any of the
socket calls raises, in which case `ret` keeps its initial empty value. -/
def detect_client_location (pilot_sitename : Option String)
    (probe : Option (String × String)) : List (String × String) :=
  let site := pilot_sitename.getD "unknown"
  match probe with
  | none => []
  | some (ip, fqdn) => [("ip", ip), ("fqdn", fqdn), ("site", site)]

/-- The shape of the catalog query `resolve_replicas` builds. -/
inductive ReplicaQuery where
  | plain
  | geoSorted (client_location : List (String × String))
  deriving DecidableEq, Repr

/-- The query-construction phase of `StagingClient.resolve_replicas`
(`pilot/api/data.py:138-158`): when some file allows remote inputs the
client location is probed and an empty probe result raises (line 145),
caught at line 157 and re-raised as a `PilotException` without a code;
otherwise the plain, unsorted query is used and the probe is never
consulted. -/
def resolve_replicas_query (allow_remoteinput : Bool) (pilot_sitename : Option String)
    (probe : Option (String × String)) : Except PilotError ReplicaQuery :=
  if allow_remoteinput then
    let location := detect_client_location pilot_sitename probe
    if location.isEmpty then
      .error ⟨.UNKNOWNEXCEPTION,
        "Failed to get replicas from Rucio: Failed to get client location for Rucio"⟩
    else .ok (.geoSorted location)
  else .ok .plain

/-- C8 counterexample: a failed probe yields the empty location dict, and
with a file allowing remote inputs `resolve_replicas` then raises a
`PilotException` — replica resolution fails instead of merely losing
geo-sorting as the claim states. -/
theorem detect_client_location_counterexample :
    detect_client_location none none = [] ∧
    resolve_replicas_query true none none
      = .error ⟨.UNKNOWNEXCEPTION,
          "Failed to get replicas from Rucio: Failed to get client location for Rucio"⟩ ∧
    resolve_replicas_query true none none ≠ .ok .plain := by
  refine ⟨rfl, rfl, ?_⟩
  intro hcontra
  exact Except.noConfusion hcontra

/-- C8 (amended): a failed probe returns the empty dict, never a partial
one; a successful probe returns exactly the keys `ip`, `fqdn`, `site`, with
`site` from `PILOT_SITENAME` defaulting to `unknown`; when no file allows
remote inputs the probe is irrelevant and the plain query is used; but when
a file allows remote inputs, an empty probe result makes `resolve_replicas`
raise a `PilotException` rather than fall back to an unsorted look-up. -/
theorem detect_client_location_spec :
    (∀ pilot_sitename : Option String,
      detect_client_location pilot_sitename none = []) ∧
    (∀ (pilot_sitename : Option String) (ip fqdn : String),
      detect_client_location pilot_sitename (some (ip, fqdn))
        = [("ip", ip), ("fqdn", fqdn), ("site", pilot_sitename.getD "unknown")]) ∧
    (∀ (pilot_sitename : Option String) (probe : Option (String × String)),
      resolve_replicas_query false pilot_sitename probe = .ok .plain) ∧
    (∀ (pilot_sitename : Option String) (probe : Option (String × String)),
      detect_client_location pilot_sitename probe = [] →
      resolve_replicas_query true pilot_sitename probe
        = .error ⟨.UNKNOWNEXCEPTION,
            "Failed to get replicas from Rucio: Failed to get client location for Rucio"⟩) := by
  refine ⟨fun _ => rfl, fun _ _ _ => rfl, fun _ _ => rfl, ?_⟩
  intro pilot_sitename probe hempty
  unfold resolve_replicas_query
  rw [if_pos rfl, hempty]
  rfl

/-- C8 witness: the amended behaviour at concrete inputs, with the empty
probe discharged through the theorem itself. -/
theorem detect_client_location_spec_witness :
    detect_client_location (some "CERN") none = [] ∧
    detect_client_location (some "CERN") (some ("10.0.0.1", "host.cern.ch"))
      = [("ip", "10.0.0.1"), ("fqdn", "host.cern.ch"), ("site", "CERN")] ∧
    resolve_replicas_query true (some "CERN") none
      = .error ⟨.UNKNOWNEXCEPTION,
          "Failed to get replicas from Rucio: Failed to get client location for Rucio"⟩ :=
  ⟨detect_client_location_spec.1 (some "CERN"),
   detect_client_location_spec.2.1 (some "CERN") "10.0.0.1" "host.cern.ch",
   detect_client_location_spec.2.2.2 (some "CERN") none rfl⟩

/-! ## Deterministic path (`StageOutClient.get_path` and `resolve_surl`)

`get_path` derives two path components from the MD5 digest of
`scope ++ ":" ++ lfn` (`pilot/api/data.py:530`), so the embedding carries a
full implementation of MD5 (RFC 1321), the algorithm behind `hashlib.md5`.
All 32-bit words are `Nat` values reduced modulo `2 ^ 32`. -/

/-- The 32-bit modulus. -/
def w32 : Nat := 4294967296

/-- Left rotation of a 32-bit word. -/
def rotl32 (x c : Nat) : Nat := ((x <<< c) % w32) ||| (x >>> (32 - c))

/-- The MD5 sine-derived constant table. -/
def md5K : List Nat :=
  [0xd76aa478, 0xe8c7b756, 0x242070db, 0xc1bdceee,
   0xf57c0faf, 0x4787c62a, 0xa8304613, 0xfd469501,
   0x698098d8, 0x8b44f7af, 0xffff5bb1, 0x895cd7be,
   0x6b901122, 0xfd987193, 0xa679438e, 0x49b40821,
   0xf61e2562, 0xc040b340, 0x265e5a51, 0xe9b6c7aa,
   0xd62f105d, 0x02441453, 0xd8a1e681, 0xe7d3fbc8,
   0x21e1cde6, 0xc33707d6, 0xf4d50d87, 0x455a14ed,
   0xa9e3e905, 0xfcefa3f8, 0x676f02d9, 0x8d2a4c8a,
   0xfffa3942, 0x8771f681, 0x6d9d6122, 0xfde5380c,
   0xa4beea44, 0x4bdecfa9, 0xf6bb4b60, 0xbebfbc70,
   0x289b7ec6, 0xeaa127fa, 0xd4ef3085, 0x04881d05,
   0xd9d4d039, 0xe6db99e5, 0x1fa27cf8, 0xc4ac5665,
   0xf4292244, 0x432aff97, 0xab9423a7, 0xfc93a039,
   0x655b59c3, 0x8f0ccc92, 0xffeff47d, 0x85845dd1,
   0x6fa87e4f, 0xfe2ce6e0, 0xa3014314, 0x4e0811a1,
   0xf7537e82, 0xbd3af235, 0x2ad7d2bb, 0xeb86d391]

/-- The MD5 per-round shift table. -/
def md5S : List Nat :=
  [7, 12, 17, 22, 7, 12, 17, 22, 7, 12, 17, 22, 7, 12, 17, 22,
   5, 9, 14, 20, 5, 9, 14, 20, 5, 9, 14, 20, 5, 9, 14, 20,
   4, 11, 16, 23, 4, 11, 16, 23, 4, 11, 16, 23, 4, 11, 16, 23,
   6, 10, 15, 21, 6, 10, 15, 21, 6, 10, 15, 21, 6, 10, 15, 21]

/-- One of the 64 MD5 rounds: `m` is the 16-word message block and the state
is `(a, b, c, d)`. -/
def md5Step (m : List Nat) (st : Nat × Nat × Nat × Nat) (i : Nat) :
    Nat × Nat × Nat × Nat :=
  let a := st.1
  let b := st.2.1
  let c := st.2.2.1
  let d := st.2.2.2
  let fg : Nat × Nat :=
    if i < 16 then ((b &&& c) ||| ((b ^^^ (w32 - 1)) &&& d), i)
    else if i < 32 then ((d &&& b) ||| ((d ^^^ (w32 - 1)) &&& c), (5 * i + 1) % 16)
    else if i < 48 then (b ^^^ c ^^^ d, (3 * i + 5) % 16)
    else (c ^^^ (b ||| (d ^^^ (w32 - 1))), (7 * i) % 16)
  let f := (fg.1 + a + md5K.getD i 0 + m.getD fg.2 0) % w32
  (d, (b + rotl32 f (md5S.getD i 0)) % w32, b, c)

/-- Little-endian byte rendering of a number on `k` bytes. -/
def leBytes (n : Nat) (k : Nat) : List Nat :=
  (List.range k).map (fun i => (n >>> (8 * i)) % 256)

/-- The 16 little-endian 32-bit words of one 64-byte chunk. -/
def md5Words (bytes : List Nat) : List Nat :=
  (List.range 16).map (fun j =>
    bytes.getD (4 * j) 0 + 256 * bytes.getD (4 * j + 1) 0
      + 65536 * bytes.getD (4 * j + 2) 0 + 16777216 * bytes.getD (4 * j + 3) 0)

/-- Processing of one 64-byte chunk: 64 rounds, then the running state is
added back in modulo `2 ^ 32`. -/
def md5Chunk (st : Nat × Nat × Nat × Nat) (bytes : List Nat) :
    Nat × Nat × Nat × Nat :=
  let m := md5Words bytes
  let r := (List.range 64).foldl (md5Step m) st
  ((st.1 + r.1) % w32, (st.2.1 + r.2.1) % w32,
   (st.2.2.1 + r.2.2.1) % w32, (st.2.2.2 + r.2.2.2) % w32)

/-- MD5 padding: a `0x80` byte, zeros up to 56 modulo 64, then the bit
length on 8 little-endian bytes. -/
def md5Pad (msg : List Nat) : List Nat :=
  let len := msg.length
  let zeros := (119 - (len % 64)) % 64
  msg ++ [128] ++ List.replicate zeros 0 ++ leBytes ((len * 8) % (2 ^ 64)) 8

/-- Chunk loop over a padded message, driven by an explicit fuel so that the
definition is structurally recursive (the fuel is instantiated with the byte
count, an upper bound on the number of 64-byte chunks). -/
def md5BlocksAux (st : Nat × Nat × Nat × Nat) (bytes : List Nat) :
    Nat → Nat × Nat × Nat × Nat
  | 0 => st
  | fuel + 1 =>
    if bytes.isEmpty then st
    else md5BlocksAux (md5Chunk st (bytes.take 64)) (bytes.drop 64) fuel

/-- The MD5 initial state. -/
def md5Init : Nat × Nat × Nat × Nat := (0x67452301, 0xefcdab89, 0x98badcfe, 0x10325476)

/-- The hexadecimal digits. -/
def hexDigits : List Char := "0123456789abcdef".data

/-- Two lowercase hex characters of one byte. -/
def byteHex (b : Nat) : List Char :=
  [hexDigits.getD (b / 16 % 16) '0', hexDigits.getD (b % 16) '0']

/-- Eight hex characters of one 32-bit word, little-endian byte order as in
the MD5 digest. -/
def wordHexLE (word : Nat) : List Char :=
  ((leBytes word 4).map byteHex).flatten

/-- The 32-character hexadecimal MD5 digest of a byte sequence, as
`hashlib.md5(...).hexdigest()` renders it. -/
def md5HexChars (bytes : List Nat) : List Char :=
  let padded := md5Pad bytes
  let st := md5BlocksAux md5Init padded padded.length
  wordHexLE st.1 ++ wordHexLE st.2.1 ++ wordHexLE st.2.2.1 ++ wordHexLE st.2.2.2

/-- Embedding of `str.split(sep)`: splits at every separator occurrence,
keeping empty parts (`"".split(".") == [""]`). -/
def pySplit (sep : Char) : List Char → List (List Char)
  | [] => [[]]
  | c :: rest =>
    let r := pySplit sep rest
    if c == sep then [] :: r
    else
      match r with
      | h :: t => (c :: h) :: t
      | [] => [[c]]

/-- Embedding of `"/".join`. -/
def joinSlash : List (List Char) → List Char
  | [] => []
  | [p] => p
  | p :: q :: rest => p ++ '/' :: joinSlash (q :: rest)

/-- Character-level embedding of `StageOutClient.get_path`
(`pilot/api/data.py:522-537`): the scope is split on dots, the first two and
next two hex characters of `md5(scope ++ ":" ++ lfn)` and the lfn are
appended, empty parts are dropped (`filter(None, paths)`), and everything is
joined with `/`.  The byte values of the characters stand for the Python 2
byte string fed to `hashlib.md5`. -/
def get_path_chars (scope lfn : List Char) : List Char :=
  let hash_hex := md5HexChars ((scope ++ ':' :: lfn).map Char.toNat)
  let paths := pySplit '.' scope ++ [hash_hex.take 2, (hash_hex.drop 2).take 2, lfn]
  joinSlash (paths.filter (fun p => !p.isEmpty))

/-- Embedding of `StageOutClient.get_path` on strings.  The `prefix`
parameter of the source (default `rucio`) is excluded from the path by the
source itself (line 534). -/
def get_path (scope lfn : String) : String :=
  String.mk (get_path_chars scope.data lfn.data)

/-- Embedding of `str.endswith`. -/
def pyEndswith (s suf : String) : Bool :=
  List.isSuffixOf suf.data s.data

/-- Embedding of `os.path.join` on two POSIX path components: an absolute
second component wins; otherwise a `/` is inserted unless the first
component is empty or already ends with one. -/
def osPathJoin (a b : String) : String :=
  if pyStartswith b "/" then b
  else if a == "" || pyEndswith a "/" then a ++ b
  else a ++ "/" ++ b

/-- One entry of `fspec.protocols` as `resolve_surl` reads it
(`protocol.get('endpoint', '')` and `protocol.get('path', '')`). -/
structure Protocol where
  endpoint : String
  path : String
  deriving DecidableEq, Repr

/-- The one field of a DDM endpoint record (`pilot/info/storagedata.py`)
that `resolve_surl` consults. -/
structure StorageData where
  is_deterministic : Bool
  deriving DecidableEq, Repr

/-- Embedding of `StageOutClient.resolve_surl` (`pilot/api/data.py:539-560`):
the endpoint must exist in `ddmconf` and be deterministic, and the SURL is
`protocol.endpoint ++ os.path.join(protocol.path, get_path(scope, lfn))`.
Both raises carry no `code` keyword, hence `UNKNOWNEXCEPTION`. -/
def resolve_surl (fspec_scope fspec_lfn fspec_ddmendpoint : String)
    (protocol : Protocol) (ddmconf : List (String × StorageData)) :
    Except PilotError String :=
  match ddmconf.lookup fspec_ddmendpoint with
  | none =>
    .error ⟨.UNKNOWNEXCEPTION, "Failed to resolve ddmendpoint by name=" ++ fspec_ddmendpoint⟩
  | some ddm =>
    if !ddm.is_deterministic then
      .error ⟨.UNKNOWNEXCEPTION,
        "resolve_surl(): Failed to construct SURL for non deterministic ddm=" ++ fspec_ddmendpoint⟩
    else
      .ok (protocol.endpoint ++ osPathJoin protocol.path (get_path fspec_scope fspec_lfn))

/-- Adjacent double slash detector, for the path-joining part of claim C4. -/
def hasDoubleSlash : List Char → Bool
  | [] => false
  | [_] => false
  | a :: b :: rest => (a == '/' && b == '/') || hasDoubleSlash (b :: rest)

theorem getD_mem_or {α : Type} (l : List α) (n : Nat) (d : α) :
    l.getD n d ∈ l ∨ l.getD n d = d := by
  induction l generalizing n with
  | nil => right; rfl
  | cons a t ih =>
    cases n with
    | zero => left; simp [List.getD]
    | succ m =>
      rcases ih m with h | h
      · left; exact List.mem_cons_of_mem _ (by simpa [List.getD] using h)
      · right; simpa [List.getD] using h

theorem hexDigits_not_slash : ∀ c ∈ hexDigits, c ≠ '/' := by decide

theorem byteHex_not_slash (b : Nat) : ∀ c ∈ byteHex b, c ≠ '/' := by
  intro c hc
  have hd : ∀ n : Nat, hexDigits.getD n '0' ≠ '/' := by
    intro n
    rcases getD_mem_or hexDigits n '0' with h | h
    · exact hexDigits_not_slash _ h
    · rw [h]; decide
  simp only [byteHex, List.mem_cons, List.not_mem_nil, or_false] at hc
  rcases hc with rfl | rfl
  · exact hd _
  · exact hd _

theorem wordHexLE_not_slash (word : Nat) : ∀ c ∈ wordHexLE word, c ≠ '/' := by
  intro c hc
  simp only [wordHexLE, List.mem_flatten, List.mem_map] at hc
  obtain ⟨l, ⟨b, _, rfl⟩, hcl⟩ := hc
  exact byteHex_not_slash b c hcl

theorem md5HexChars_not_slash (bytes : List Nat) : ∀ c ∈ md5HexChars bytes, c ≠ '/' := by
  intro c hc
  simp only [md5HexChars, List.mem_append] at hc
  rcases hc with ((h | h) | h) | h
  · exact wordHexLE_not_slash _ c h
  · exact wordHexLE_not_slash _ c h
  · exact wordHexLE_not_slash _ c h
  · exact wordHexLE_not_slash _ c h

theorem pySplit_ne_nil (sep : Char) (s : List Char) : pySplit sep s ≠ [] := by
  cases s with
  | nil => simp [pySplit]
  | cons c rest =>
    simp only [pySplit]
    by_cases h : (c == sep) = true
    · simp [h]
    · simp only [h, if_false]
      cases pySplit sep rest <;> simp

theorem pySplit_chars (sep : Char) (s : List Char) :
    ∀ p ∈ pySplit sep s, ∀ c ∈ p, c ∈ s := by
  induction s with
  | nil =>
    intro p hp c hc
    simp [pySplit] at hp
    subst hp
    simp at hc
  | cons c0 rest ih =>
    intro p hp c hc
    simp only [pySplit] at hp
    by_cases hsep : (c0 == sep) = true
    · rw [if_pos hsep] at hp
      rcases List.mem_cons.mp hp with rfl | hp'
      · simp at hc
      · exact List.mem_cons_of_mem _ (ih p hp' c hc)
    · rw [if_neg hsep] at hp
      cases hr : pySplit sep rest with
      | nil => exact absurd hr (pySplit_ne_nil sep rest)
      | cons h t =>
        rw [hr] at hp
        rcases List.mem_cons.mp hp with rfl | hp'
        · rcases List.mem_cons.mp hc with rfl | hc'
          · exact List.mem_cons_self c rest
          · have hmem : h ∈ pySplit sep rest := by
              rw [hr]; exact List.mem_cons_self h t
            exact List.mem_cons_of_mem _ (ih h hmem c hc')
        · have hmem : p ∈ pySplit sep rest := by
            rw [hr]; exact List.mem_cons_of_mem _ hp'
          exact List.mem_cons_of_mem _ (ih p hmem c hc)

theorem hasDoubleSlash_cons_of_ne (a : Char) (xs : List Char) (ha : a ≠ '/') :
    hasDoubleSlash (a :: xs) = hasDoubleSlash xs := by
  cases xs with
  | nil => rfl
  | cons b r => simp [hasDoubleSlash, ha]

theorem hasDoubleSlash_slashfree_append (p l : List Char) (hp : ∀ c ∈ p, c ≠ '/') :
    hasDoubleSlash (p ++ l) = hasDoubleSlash l := by
  induction p with
  | nil => rfl
  | cons a t ih =>
    have ha : a ≠ '/' := hp a (List.mem_cons_self a t)
    have ht : ∀ c ∈ t, c ≠ '/' := fun c hc => hp c (List.mem_cons_of_mem _ hc)
    rw [List.cons_append, hasDoubleSlash_cons_of_ne a _ ha, ih ht]

theorem hasDoubleSlash_of_slashfree (l : List Char) (h : ∀ c ∈ l, c ≠ '/') :
    hasDoubleSlash l = false := by
  have := hasDoubleSlash_slashfree_append l [] h
  simpa using this

theorem hasDoubleSlash_append_of (xs ys : List Char) (h1 : hasDoubleSlash xs = false)
    (hlast : xs.getLast? ≠ some '/') (h2 : hasDoubleSlash ys = false) :
    hasDoubleSlash (xs ++ ys) = false := by
  induction xs with
  | nil => simpa using h2
  | cons a t ih =>
    cases t with
    | nil =>
      have ha : a ≠ '/' := by
        intro hcontra
        exact hlast (by rw [hcontra]; rfl)
      rw [List.cons_append, List.nil_append, hasDoubleSlash_cons_of_ne a ys ha]
      exact h2
    | cons b r =>
      have h1' : (a == '/' && b == '/') = false ∧ hasDoubleSlash (b :: r) = false := by
        have := h1
        simp only [hasDoubleSlash, Bool.or_eq_false_iff] at this
        exact this
      have hlast' : (b :: r).getLast? ≠ some '/' := by
        rwa [List.getLast?_cons_cons] at hlast
      have hrec := ih h1'.2 hlast'
      show hasDoubleSlash (a :: b :: (r ++ ys)) = false
      have hexp : hasDoubleSlash (a :: b :: (r ++ ys))
          = ((a == '/' && b == '/') || hasDoubleSlash (b :: (r ++ ys))) := rfl
      rw [hexp, h1'.1]
      simpa using hrec

theorem joinSlash_head_not_slash (ps : List (List Char))
    (h : ∀ p ∈ ps, p ≠ [] ∧ ∀ c ∈ p, c ≠ '/') :
    ∀ c, (joinSlash ps).head? = some c → c ≠ '/' := by
  cases ps with
  | nil => intro c hc; simp [joinSlash] at hc
  | cons p rest =>
    obtain ⟨hpne, hpc⟩ := h p (List.mem_cons_self p rest)
    cases hq : p with
    | nil => exact absurd hq hpne
    | cons c0 pr =>
      intro c hc
      cases rest with
      | nil =>
        simp only [joinSlash, hq, List.head?] at hc
        exact (Option.some.injEq _ _ ▸ hc) ▸ hpc c0 (hq ▸ List.mem_cons_self c0 pr)
      | cons q rest2 =>
        simp only [joinSlash, hq, List.cons_append, List.head?] at hc
        exact (Option.some.injEq _ _ ▸ hc) ▸ hpc c0 (hq ▸ List.mem_cons_self c0 pr)

theorem joinSlash_no_double_slash (ps : List (List Char))
    (h : ∀ p ∈ ps, p ≠ [] ∧ ∀ c ∈ p, c ≠ '/') :
    hasDoubleSlash (joinSlash ps) = false := by
  induction ps with
  | nil => rfl
  | cons p rest ih =>
    obtain ⟨hpne, hpc⟩ := h p (List.mem_cons_self p rest)
    have hrest : ∀ q ∈ rest, q ≠ [] ∧ ∀ c ∈ q, c ≠ '/' :=
      fun q hq => h q (List.mem_cons_of_mem _ hq)
    cases rest with
    | nil => exact hasDoubleSlash_of_slashfree p hpc
    | cons q rest2 =>
      show hasDoubleSlash (p ++ '/' :: joinSlash (q :: rest2)) = false
      rw [hasDoubleSlash_slashfree_append p _ hpc]
      have hJ : hasDoubleSlash (joinSlash (q :: rest2)) = false := ih hrest
      cases hJshape : joinSlash (q :: rest2) with
      | nil => rfl
      | cons c0 jr =>
        have hc0 : c0 ≠ '/' :=
          joinSlash_head_not_slash (q :: rest2) hrest c0 (by rw [hJshape]; rfl)
        rw [hJshape] at hJ
        simp [hasDoubleSlash, hc0, hJ]

theorem get_path_components_ok (scope lfn : List Char)
    (hscope : ∀ c ∈ scope, c ≠ '/') (hlfn : ∀ c ∈ lfn, c ≠ '/') :
    ∀ p ∈ (pySplit '.' scope
          ++ [(md5HexChars ((scope ++ ':' :: lfn).map Char.toNat)).take 2,
              ((md5HexChars ((scope ++ ':' :: lfn).map Char.toNat)).drop 2).take 2,
              lfn]).filter (fun p => !p.isEmpty),
      p ≠ [] ∧ ∀ c ∈ p, c ≠ '/' := by
  intro p hp
  obtain ⟨hmem, hne⟩ := List.mem_filter.mp hp
  refine ⟨by simpa [List.isEmpty_iff] using hne, ?_⟩
  intro c hc
  rcases List.mem_append.mp hmem with hsplit | hrest
  · exact hscope c (pySplit_chars '.' scope p hsplit c hc)
  · simp only [List.mem_cons, List.not_mem_nil, or_false] at hrest
    rcases hrest with rfl | rfl | rfl
    · exact md5HexChars_not_slash _ c (List.take_subset 2 _ hc)
    · exact md5HexChars_not_slash _ c (List.drop_subset 2 _ (List.take_subset 2 _ hc))
    · exact hlfn c hc

/-- C4 counterexample: the MD5 digest of `user.x:f.root` is
`54f8a1b99c0701b78c71e1f795ecf003`, so `resolve_surl` yields
`srm://x//atlas/user/x/54/f8/f.root`, not the claimed
`.../d4/1d/f.root` (whose digits `d41d` come from the MD5 of the empty
string); moreover, for a scope containing a slash the joined path does
contain `//`, refuting the unconditional no-double-slash part. -/
theorem get_path_counterexample :
    resolve_surl "user.x" "f.root" "SITE" ⟨"srm://x/", "/atlas/"⟩ [("SITE", ⟨true⟩)]
      = .ok "srm://x//atlas/user/x/54/f8/f.root" ∧
    ("srm://x//atlas/user/x/54/f8/f.root" : String) ≠ "srm://x//atlas/user/x/d4/1d/f.root" ∧
    hasDoubleSlash (osPathJoin "p" (get_path "a./b" "f")).data = true := by
  refine ⟨rfl, by decide, by decide⟩

/-- C4 (amended): `get_path(scope, lfn)` is the pure function joining the
dot-split scope parts, the first two and next two hex characters of
`md5(scope ++ ":" ++ lfn)` and the lfn with `/` after dropping empty parts;
when scope and lfn contain no slash, joining the result to a non-empty
prefix that has no double slash and does not end in `/` never yields `//`;
and `resolve_surl` for scope `user.x`, lfn `f.root`, protocol endpoint
`srm://x/` and path `/atlas/` yields `srm://x//atlas/user/x/54/f8/f.root`
(the digest of `user.x:f.root` starts `54f8`, not `d41d`). -/
theorem get_path_spec :
    (∀ pfx scope lfn : List Char,
      pfx ≠ [] → hasDoubleSlash pfx = false → pfx.getLast? ≠ some '/' →
      (∀ c ∈ scope, c ≠ '/') → (∀ c ∈ lfn, c ≠ '/') →
      hasDoubleSlash (pfx ++ '/' :: get_path_chars scope lfn) = false) ∧
    resolve_surl "user.x" "f.root" "SITE" ⟨"srm://x/", "/atlas/"⟩ [("SITE", ⟨true⟩)]
      = .ok "srm://x//atlas/user/x/54/f8/f.root" := by
  constructor
  · intro pfx scope lfn _ hpfx hlast hscope hlfn
    have hcomp := get_path_components_ok scope lfn hscope hlfn
    have hpath : get_path_chars scope lfn
        = joinSlash ((pySplit '.' scope
            ++ [(md5HexChars ((scope ++ ':' :: lfn).map Char.toNat)).take 2,
                ((md5HexChars ((scope ++ ':' :: lfn).map Char.toNat)).drop 2).take 2,
                lfn]).filter (fun p => !p.isEmpty)) := rfl
    apply hasDoubleSlash_append_of pfx _ hpfx hlast
    rw [hpath]
    cases hJshape : joinSlash ((pySplit '.' scope
        ++ [(md5HexChars ((scope ++ ':' :: lfn).map Char.toNat)).take 2,
            ((md5HexChars ((scope ++ ':' :: lfn).map Char.toNat)).drop 2).take 2,
            lfn]).filter (fun p => !p.isEmpty)) with
    | nil => rfl
    | cons c0 jr =>
      have hc0 : c0 ≠ '/' :=
        joinSlash_head_not_slash _ hcomp c0 (by rw [hJshape]; rfl)
      have hJ := joinSlash_no_double_slash _ hcomp
      rw [hJshape] at hJ
      simp [hasDoubleSlash, hc0, hJ]
  · rfl

/-- C4 witness: the no-double-slash part of the amended claim at the
concrete prefix `www` and the scenario scope and lfn. -/
theorem get_path_spec_witness :
    hasDoubleSlash ("www".data ++ '/' :: get_path_chars "user.x".data "f.root".data)
      = false :=
  get_path_spec.1 "www".data "user.x".data "f.root".data (by decide) (by decide)
    (by decide) (by decide) (by decide)

/-! ## Stage-out missing-file handling (`StageOutClient.transfer_files`
and `pilot/copytool/s3.py::copy_out`) -/

/-- The fields of one output `FileSpec` read or written by the stage-out
pre-check and by the s3 copytool.  `pfn` models `getattr(fspec, 'pfn',
None)`; `status_code` uses `none` for the integer `0` and `some code` for a
taxonomy code. -/
structure OutFileSpec where
  lfn : String
  surl : String
  pfn : Option String
  turl : String
  filesize : Nat
  adler32 : String
  activity : List String
  status : Option String
  status_code : Option ErrorCode
  deriving DecidableEq, Repr

/-- The local pfn of an output file as resolved at `pilot/api/data.py:578`:
`fspec.surl or getattr(fspec, 'pfn', None) or os.path.join(workdir,
fspec.lfn)`, where empty strings are falsy. -/
def outputPfn (workdir : String) (fspec : OutFileSpec) : String :=
  if fspec.surl != "" then fspec.surl
  else
    match fspec.pfn with
    | some p => if p != "" then p else osPathJoin workdir fspec.lfn
    | none => osPathJoin workdir fspec.lfn

/-- The existence pre-check loop of `StageOutClient.transfer_files`
(`pilot/api/data.py:575-588`), run before any protocol resolution and before
any copytool is invoked.  The file system is passed as oracles:
`isfile_readable` models `os.path.isfile(pfn) and os.access(pfn, os.R_OK)`,
`getsize` models `os.path.getsize`, and `checksum` models
`calculate_checksum`.  A missing or unreadable pfn raises a `PilotException`
with code `MISSINGOUTPUTFILE` at the first such file. -/
def stage_out_precheck (isfile_readable : String → Bool) (getsize : String → Nat)
    (checksum : String → String) (workdir : String) (activity : List String) :
    List OutFileSpec → Except PilotError (List OutFileSpec)
  | [] => .ok []
  | fspec :: rest =>
    let pfn := outputPfn workdir fspec
    if !isfile_readable pfn then
      .error ⟨.MISSINGOUTPUTFILE, "Error: output pfn file does not exist: " ++ pfn⟩
    else
      let fspec :=
        { fspec with
            filesize := if fspec.filesize = 0 then getsize pfn else fspec.filesize,
            surl := pfn,
            activity := activity }
      let fspec :=
        { fspec with adler32 := if fspec.adler32 = "" then checksum pfn else fspec.adler32 }
      match stage_out_precheck isfile_readable getsize checksum workdir activity rest with
      | .ok rest' => .ok (fspec :: rest')
      | .error e => .error e

/-- The per-file loop of `pilot/copytool/s3.py::copy_out` (`s3.py:306-333`),
on the default path where `PANDA_PILOT_COPY_OUT_EXTEND` is unset
(`get_copy_out_extend()` returns falsy, line 303).  `file_exists` models
`os.path.exists`, `upload` models `upload_file` returning `(status,
diagnostics)`, and `resolve_error` models `resolve_common_transfer_errors`
for the failed-upload branch.  An absent local output file sets
`status = failed`, `status_code = STAGEOUTFAILED` and raises a
`PilotException` with that same code (lines 323-328). -/
def s3_copy_out (file_exists : String → Bool) (upload : String → String → Bool × String)
    (resolve_error : String → ErrorCode) (workdir : String) :
    List OutFileSpec → Except PilotError (List OutFileSpec)
  | [] => .ok []
  | fspec :: rest =>
    let path := osPathJoin workdir fspec.lfn
    if file_exists path then
      let full_url := osPathJoin fspec.turl fspec.lfn
      let res := upload path full_url
      if !res.1 then
        .error ⟨resolve_error res.2, res.2⟩
      else
        let fspec := { fspec with status := some "transferred", status_code := none }
        match s3_copy_out file_exists upload resolve_error workdir rest with
        | .ok rest' => .ok (fspec :: rest')
        | .error e => .error e
    else
      .error ⟨.STAGEOUTFAILED, "local output file does not exist: " ++ path⟩

/-- C7 counterexample: the s3 `copy_out` reports an absent local output file
with code `STAGEOUTFAILED` (`s3.py:327-328`), which is not
`MISSINGOUTPUTFILE`, so the part of the claim about the s3 backend fails. -/
theorem s3_copy_out_counterexample :
    s3_copy_out (fun _ => false) (fun _ _ => (true, "")) (fun _ => .STAGEOUTFAILED) "/work"
        [⟨"a.root", "", none, "s3://b", 0, "", [], none, none⟩]
      = .error ⟨.STAGEOUTFAILED, "local output file does not exist: /work/a.root"⟩ ∧
    ErrorCode.STAGEOUTFAILED ≠ ErrorCode.MISSINGOUTPUTFILE := by
  exact ⟨rfl, by decide⟩

/-- C7 (amended): `StageOutClient.transfer_files` raises a `PilotException`
whose code is `MISSINGOUTPUTFILE` before invoking any backend whenever some
file's local pfn does not exist or is unreadable; but the s3 backend's
`copy_out` reports an absent local output file with code `STAGEOUTFAILED`,
not `MISSINGOUTPUTFILE`. -/
theorem stage_out_missing_file_spec :
    (∀ (isfile_readable : String → Bool) (getsize : String → Nat)
        (checksum : String → String) (workdir : String) (activity : List String)
        (files : List OutFileSpec),
      (∃ f ∈ files, isfile_readable (outputPfn workdir f) = false) →
      ∃ pfn, isfile_readable pfn = false ∧
        stage_out_precheck isfile_readable getsize checksum workdir activity files
          = .error ⟨.MISSINGOUTPUTFILE, "Error: output pfn file does not exist: " ++ pfn⟩) ∧
    (∀ (file_exists : String → Bool) (upload : String → String → Bool × String)
        (resolve_error : String → ErrorCode) (workdir : String)
        (fspec : OutFileSpec) (rest : List OutFileSpec),
      file_exists (osPathJoin workdir fspec.lfn) = false →
      s3_copy_out file_exists upload resolve_error workdir (fspec :: rest)
        = .error ⟨.STAGEOUTFAILED,
            "local output file does not exist: " ++ osPathJoin workdir fspec.lfn⟩) := by
  constructor
  · intro isfile_readable getsize checksum workdir activity files hex
    induction files with
    | nil => simp at hex
    | cons fspec rest ih =>
      by_cases hf : isfile_readable (outputPfn workdir fspec) = false
      · refine ⟨outputPfn workdir fspec, hf, ?_⟩
        unfold stage_out_precheck
        simp [hf]
      · have hfr : isfile_readable (outputPfn workdir fspec) = true := by
          cases h : isfile_readable (outputPfn workdir fspec) with
          | false => exact absurd h hf
          | true => rfl
        have hex' : ∃ f ∈ rest, isfile_readable (outputPfn workdir f) = false := by
          rcases hex with ⟨f, hfmem, hffalse⟩
          rcases List.mem_cons.mp hfmem with rfl | hmem
          · exact absurd hffalse hf
          · exact ⟨f, hmem, hffalse⟩
        obtain ⟨pfn, hpfn, heq⟩ := ih hex'
        refine ⟨pfn, hpfn, ?_⟩
        unfold stage_out_precheck
        simp [hfr, heq]
  · intro file_exists upload resolve_error workdir fspec rest hmiss
    unfold s3_copy_out
    simp [hmiss]

/-- C7 witness: both parts of the amended behaviour at concrete inputs — a
batch whose second file is missing makes the pre-check raise
`MISSINGOUTPUTFILE`, and the s3 backend raises `STAGEOUTFAILED` for an
absent local file. -/
theorem stage_out_missing_file_spec_witness :
    (∃ pfn, (fun p => p == "/work/a.root") pfn = false ∧
      stage_out_precheck (fun p => p == "/work/a.root") (fun _ => 7) (fun _ => "ad32")
          "/work" ["pw"]
          [⟨"a.root", "", none, "", 0, "", [], none, none⟩,
           ⟨"b.root", "", none, "", 0, "", [], none, none⟩]
        = .error ⟨.MISSINGOUTPUTFILE, "Error: output pfn file does not exist: " ++ pfn⟩) ∧
    s3_copy_out (fun _ => false) (fun _ _ => (true, "")) (fun _ => .STAGEOUTFAILED) "/work"
        [⟨"b.root", "", none, "s3://b", 0, "", [], none, none⟩]
      = .error ⟨.STAGEOUTFAILED, "local output file does not exist: /work/b.root"⟩ := by
  constructor
  · exact stage_out_missing_file_spec.1 (fun p => p == "/work/a.root") (fun _ => 7)
      (fun _ => "ad32") "/work" ["pw"]
      [⟨"a.root", "", none, "", 0, "", [], none, none⟩,
       ⟨"b.root", "", none, "", 0, "", [], none, none⟩]
      ⟨⟨"b.root", "", none, "", 0, "", [], none, none⟩, by decide, by decide⟩
  · exact stage_out_missing_file_spec.2 (fun _ => false) (fun _ _ => (true, ""))
      (fun _ => .STAGEOUTFAILED) "/work" ⟨"b.root", "", none, "s3://b", 0, "", [], none, none⟩
      [] rfl

/-! ## Pool File Catalog round trip (`pilot/user/atlas/metadata.py`)

The XML serialisation and re-parsing between `create_input_file_metadata`
and `get_file_info_from_xml` go through the Python standard library
(`ElementTree.tostring`, `minidom.toprettyxml`, `ElementTree.parse`), which
the spec puts out of scope (section 1); pretty-printing only inserts
whitespace text nodes and the DOCTYPE line, and the parser walk below reads
only elements and attributes, so the embedding works at the element-tree
level, where the write/parse pair is the identity on tags and attributes. -/

/-- A generic XML element: tag, attribute list, children. -/
inductive XElem where
  | elem (tag : String) (attribs : List (String × String)) (children : List XElem)

/-- The `File` element built for one `(guid, pfn)` entry by
`create_input_file_metadata` (`metadata.py:60-67`). -/
def pfcFileElem (kv : String × String) : XElem :=
  .elem "File" [("ID", kv.1)]
    [.elem "physical" [] [.elem "pfn" [("filetype", "ROOT_All"), ("name", kv.2)] []],
     .elem "logical" [] []]

/-- Embedding of `create_input_file_metadata` (`metadata.py:32-78`): one
`File` element per dictionary entry, in dictionary (insertion) order, inside
a `POOLFILECATALOG` root. -/
def create_input_file_metadata (file_dictionary : List (String × String)) : XElem :=
  .elem "POOLFILECATALOG" [] (file_dictionary.map pfcFileElem)

/-- Embedding of `os.path.basename`: everything after the last slash. -/
def pyBasename (p : String) : String :=
  String.mk ((pySplit '/' p.data).getLastD [])

/-- Assignment `dict[key] = value` on an association list with Python dict
semantics: an existing key is overwritten in place, a new key is appended. -/
def dictInsert (m : List (String × String × String)) (key : String)
    (v : String × String) : List (String × String × String) :=
  if m.any (fun kv => kv.1 == key) then
    m.map (fun kv => if kv.1 == key then (key, v) else kv)
  else m ++ [(key, v)]

/-- The body of the `for child in root` loop of `get_file_info_from_xml`
(`metadata.py:114-123`): `child.attrib['ID']` is the guid (`KeyError` when
absent), every grandchild is scanned, and every great-grandchild contributes
the entry `basename(name) -> [name, guid]` (`attrib['name']` raises
`KeyError` when absent). -/
def parseFileChild (acc : List (String × String × String)) (child : XElem) :
    Except String (List (String × String × String)) :=
  match child with
  | .elem _ cattribs gcs =>
    match cattribs.lookup "ID" with
    | none => .error "KeyError: ID"
    | some guid =>
      gcs.foldlM (fun acc2 gc =>
        match gc with
        | .elem _ _ ggcs =>
          ggcs.foldlM (fun acc3 ggc =>
            match ggc with
            | .elem _ gattribs _ =>
              match gattribs.lookup "name" with
              | none => .error "KeyError: name"
              | some pfn => .ok (dictInsert acc3 (pyBasename pfn) (pfn, guid))) acc2) acc

/-- Embedding of `get_file_info_from_xml` (`metadata.py:81-125`): the file
info dictionary built by walking all `File` children of the root. -/
def get_file_info_from_xml (root : XElem) :
    Except String (List (String × String × String)) :=
  match root with
  | .elem _ _ children => children.foldlM parseFileChild []

theorem parseFileChild_fileElem (acc : List (String × String × String))
    (kv : String × String) :
    parseFileChild acc (pfcFileElem kv)
      = .ok (dictInsert acc (pyBasename kv.2) (kv.2, kv.1)) := rfl

theorem dictInsert_fresh (m : List (String × String × String)) (key : String)
    (v : String × String) (h : ∀ e ∈ m, e.1 ≠ key) :
    dictInsert m key v = m ++ [(key, v)] := by
  have hany : m.any (fun kv => kv.1 == key) = false := by
    rw [Bool.eq_false_iff]
    intro hcontra
    obtain ⟨e, he, heq⟩ := List.any_eq_true.mp hcontra
    exact h e he (by simpa using heq)
  simp [dictInsert, hany]

theorem parse_create_aux (d : List (String × String))
    (acc : List (String × String × String))
    (hdisj : ∀ kv ∈ d, ∀ e ∈ acc, e.1 ≠ pyBasename kv.2)
    (hnodup : (d.map (fun kv => pyBasename kv.2)).Nodup) :
    (d.map pfcFileElem).foldlM parseFileChild acc
      = .ok (acc ++ d.map (fun kv => (pyBasename kv.2, kv.2, kv.1))) := by
  induction d generalizing acc with
  | nil =>
    simp only [List.map_nil, List.foldlM_nil, List.append_nil]
    rfl
  | cons kv rest ih =>
    have hfresh : ∀ e ∈ acc, e.1 ≠ pyBasename kv.2 :=
      fun e he => hdisj kv (List.mem_cons_self kv rest) e he
    have hhead : pyBasename kv.2 ∉ rest.map (fun kv' => pyBasename kv'.2) :=
      (List.nodup_cons.mp (by simpa using hnodup)).1
    have hdisj' : ∀ kv' ∈ rest, ∀ e ∈ acc ++ [(pyBasename kv.2, kv.2, kv.1)],
        e.1 ≠ pyBasename kv'.2 := by
      intro kv' hkv' e he
      rcases List.mem_append.mp he with hmem | hmem
      · exact hdisj kv' (List.mem_cons_of_mem _ hkv') e hmem
      · simp only [List.mem_cons, List.not_mem_nil, or_false] at hmem
        subst hmem
        intro hcontra
        have hcontra' : pyBasename kv.2 = pyBasename kv'.2 := hcontra
        exact hhead (hcontra' ▸ List.mem_map_of_mem (fun kv'' => pyBasename kv''.2) hkv')
    have hnodup' : (rest.map (fun kv' => pyBasename kv'.2)).Nodup :=
      (List.nodup_cons.mp (by simpa using hnodup)).2
    calc ((kv :: rest).map pfcFileElem).foldlM parseFileChild acc
        = parseFileChild acc (pfcFileElem kv) >>= fun acc' =>
            (rest.map pfcFileElem).foldlM parseFileChild acc' := by
          simp [List.foldlM_cons]
      _ = (rest.map pfcFileElem).foldlM parseFileChild
            (acc ++ [(pyBasename kv.2, kv.2, kv.1)]) := by
          rw [parseFileChild_fileElem, dictInsert_fresh acc _ _ hfresh]
          rfl
      _ = .ok (acc ++ (kv :: rest).map (fun kv' => (pyBasename kv'.2, kv'.2, kv'.1))) := by
          rw [ih _ hdisj' hnodup']
          simp

/-- C10: for every guid-to-pfn dictionary whose pfn basenames are pairwise
distinct, parsing the Pool File Catalog written by
`create_input_file_metadata` with `get_file_info_from_xml` returns exactly
the dictionary `basename(pfn) -> (pfn, guid)`, one entry per input entry, in
input order. -/
theorem pfc_round_trip (d : List (String × String))
    (hnodup : (d.map (fun kv => pyBasename kv.2)).Nodup) :
    get_file_info_from_xml (create_input_file_metadata d)
      = .ok (d.map (fun kv => (pyBasename kv.2, kv.2, kv.1))) := by
  have h := parse_create_aux d [] (by simp) hnodup
  simpa [get_file_info_from_xml, create_input_file_metadata] using h

/-- C10 witness: the round trip on a concrete two-entry dictionary. -/
theorem pfc_round_trip_witness :
    get_file_info_from_xml (create_input_file_metadata
        [("4ACC5018-2EA3-B441", "root://host:1096//path/AOD.11164242.pool.root.1"),
         ("77AA10FF-0001-4242", "log.tgz")])
      = .ok [("AOD.11164242.pool.root.1",
              "root://host:1096//path/AOD.11164242.pool.root.1", "4ACC5018-2EA3-B441"),
             ("log.tgz", "log.tgz", "77AA10FF-0001-4242")] :=
  pfc_round_trip
    [("4ACC5018-2EA3-B441", "root://host:1096//path/AOD.11164242.pool.root.1"),
     ("77AA10FF-0001-4242", "log.tgz")] (by decide)

end Pilot
